import Mathlib

/-!
Shallow embedding of `src/auth/mod.rs` of pka/Hecate: the access-control
subsystem (tier classifiers, policy document, credential, resolver,
validator, permission gate).  Rust `Result<T, E>` is embedded as
`Except E T`, in-place mutation of the `Auth` credential as explicit
state passing, and the postgres connection as a record of the two query
shapes `validate` issues, each returning `none` on a store-level failure
and `some rows` otherwise.
-/

deriving instance DecidableEq for Except

namespace Hecate

/-- `HecateError::new(401, msg, None)`: the uniform runtime denial. -/
structure HecateError where
  code : Nat
  msg : String
  deriving DecidableEq

/-- `not_authed()` from `src/auth/mod.rs` line 7. -/
def notAuthed : HecateError :=
  { code := 401, msg := "You must be logged in to access this resource" }

/-- `is_all`: allows a category value to be null, `public`, `admin` or `user`. -/
def is_all (scope_type : String) (scope : Option String) : Except String Bool :=
  match scope with
  | none => .ok true
  | some scope_str =>
    if scope_str = "public" then .ok true
    else if scope_str = "admin" then .ok true
    else if scope_str = "user" then .ok true
    else .error ("Auth Config Error: '" ++ scope_type ++ "' must be one of 'public', 'admin', 'user', or null")

/-- `is_self`: allows a category value to be null, `self` or `admin`. -/
def is_self (scope_type : String) (scope : Option String) : Except String Bool :=
  match scope with
  | none => .ok true
  | some scope_str =>
    if scope_str = "self" then .ok true
    else if scope_str = "admin" then .ok true
    else .error ("Auth Config Error: '" ++ scope_type ++ "' must be one of 'self', 'admin', or null")

/-- `is_auth`: allows a category value to be null, `user` or `admin`
(the diagnostic text says `'self'`, as in the source). -/
def is_auth (scope_type : String) (scope : Option String) : Except String Bool :=
  match scope with
  | none => .ok true
  | some scope_str =>
    if scope_str = "user" then .ok true
    else if scope_str = "admin" then .ok true
    else .error ("Auth Config Error: '" ++ scope_type ++ "' must be one of 'self', 'admin', or null")

structure AuthWebhooks where
  list : Option String
  delete : Option String
  update : Option String
  deriving DecidableEq

def AuthWebhooks.new : AuthWebhooks :=
  { list := some "admin", delete := some "admin", update := some "admin" }

def AuthWebhooks.is_valid (x : AuthWebhooks) : Except String Bool := do
  let _ ← is_auth "webhooks::list" x.list
  let _ ← is_auth "webhooks::delete" x.delete
  let _ ← is_auth "webhooks::update" x.update
  pure true

structure AuthMeta where
  get : Option String
  list : Option String
  set : Option String
  deriving DecidableEq

def AuthMeta.new : AuthMeta :=
  { get := some "public", list := some "public", set := some "admin" }

def AuthMeta.is_valid (x : AuthMeta) : Except String Bool := do
  let _ ← is_all "meta::get" x.get
  let _ ← is_all "meta::list" x.list
  let _ ← is_auth "meta::set" x.set
  pure true

structure AuthClone where
  get : Option String
  query : Option String
  deriving DecidableEq

def AuthClone.new : AuthClone :=
  { get := some "user", query := some "user" }

def AuthClone.is_valid (x : AuthClone) : Except String Bool := do
  let _ ← is_all "clone::get" x.get
  let _ ← is_all "clone::query" x.query
  pure true

structure AuthSchema where
  get : Option String
  deriving DecidableEq

def AuthSchema.new : AuthSchema :=
  { get := some "public" }

def AuthSchema.is_valid (x : AuthSchema) : Except String Bool := do
  let _ ← is_all "schema::get" x.get
  pure true

structure AuthStats where
  get : Option String
  bounds : Option String
  deriving DecidableEq

def AuthStats.new : AuthStats :=
  { get := some "public", bounds := some "public" }

def AuthStats.is_valid (x : AuthStats) : Except String Bool := do
  let _ ← is_all "stats::get" x.get
  let _ ← is_all "stats::bounds" x.bounds
  pure true

structure AuthAuth where
  get : Option String
  deriving DecidableEq

def AuthAuth.new : AuthAuth :=
  { get := some "public" }

def AuthAuth.is_valid (x : AuthAuth) : Except String Bool := do
  let _ ← is_all "auth::get" x.get
  pure true

structure AuthMVT where
  get : Option String
  delete : Option String
  regen : Option String
  meta : Option String
  deriving DecidableEq

def AuthMVT.new : AuthMVT :=
  { get := some "public", delete := some "admin", regen := some "user", meta := some "public" }

/-- As in the source: the entry labelled `mvt::delete` re-validates the
`regen` field; the `delete` field itself is never validated. -/
def AuthMVT.is_valid (x : AuthMVT) : Except String Bool := do
  let _ ← is_all "mvt::get" x.get
  let _ ← is_all "mvt::regen" x.regen
  let _ ← is_all "mvt::delete" x.regen
  let _ ← is_all "mvt::meta" x.meta
  pure true

structure AuthUser where
  info : Option String
  list : Option String
  create : Option String
  create_session : Option String
  deriving DecidableEq

def AuthUser.new : AuthUser :=
  { info := some "self", list := some "user", create := some "public",
    create_session := some "self" }

def AuthUser.is_valid (x : AuthUser) : Except String Bool := do
  let _ ← is_all "user::create" x.create
  let _ ← is_all "user::list" x.list
  let _ ← is_self "user::create_session" x.create_session
  let _ ← is_self "user::info" x.info
  pure true

structure AuthStyle where
  create : Option String
  patch : Option String
  set_public : Option String
  set_private : Option String
  delete : Option String
  get : Option String
  list : Option String
  deriving DecidableEq

def AuthStyle.new : AuthStyle :=
  { create := some "self", patch := some "self", set_public := some "self",
    set_private := some "self", delete := some "self", get := some "public",
    list := some "public" }

def AuthStyle.is_valid (x : AuthStyle) : Except String Bool := do
  let _ ← is_self "style::create" x.create
  let _ ← is_self "style::patch" x.patch
  let _ ← is_self "style::set_public" x.set_public
  let _ ← is_self "style::set_private" x.set_private
  let _ ← is_self "style::delete" x.delete
  let _ ← is_all "style::get" x.get
  let _ ← is_all "style::list" x.list
  pure true

structure AuthDelta where
  get : Option String
  list : Option String
  deriving DecidableEq

def AuthDelta.new : AuthDelta :=
  { get := some "public", list := some "public" }

def AuthDelta.is_valid (x : AuthDelta) : Except String Bool := do
  let _ ← is_all "delta::get" x.get
  let _ ← is_all "delta::list" x.list
  pure true

structure AuthFeature where
  force : Option String
  create : Option String
  get : Option String
  history : Option String
  deriving DecidableEq

def AuthFeature.new : AuthFeature :=
  { force := some "none", create := some "user", get := some "public",
    history := some "public" }

def AuthFeature.is_valid (x : AuthFeature) : Except String Bool := do
  let _ ← is_auth "feature::create" x.create
  let _ ← is_auth "feature::force" x.force
  let _ ← is_all "feature::get" x.get
  let _ ← is_all "feature::history" x.history
  pure true

structure AuthBounds where
  list : Option String
  create : Option String
  delete : Option String
  get : Option String
  deriving DecidableEq

def AuthBounds.new : AuthBounds :=
  { list := some "public", create := some "admin", delete := some "admin",
    get := some "public" }

/-- As in the source: the entry labelled `bounds::delete` re-validates the
`create` field; the `delete` field itself is never validated. -/
def AuthBounds.is_valid (x : AuthBounds) : Except String Bool := do
  let _ ← is_all "bounds::list" x.list
  let _ ← is_all "bounds::create" x.create
  let _ ← is_all "bounds::delete" x.create
  let _ ← is_all "bounds::get" x.get
  pure true

structure AuthOSM where
  get : Option String
  create : Option String
  deriving DecidableEq

def AuthOSM.new : AuthOSM :=
  { get := some "public", create := some "user" }

def AuthOSM.is_valid (x : AuthOSM) : Except String Bool := do
  let _ ← is_all "osm::get" x.get
  let _ ← is_auth "osm::create" x.create
  pure true

structure CustomAuth where
  server : Option String
  meta : Option AuthMeta
  webhooks : Option AuthWebhooks
  stats : Option AuthStats
  mvt : Option AuthMVT
  schema : Option AuthSchema
  auth : Option AuthAuth
  user : Option AuthUser
  feature : Option AuthFeature
  style : Option AuthStyle
  delta : Option AuthDelta
  bounds : Option AuthBounds
  pclone : Option AuthClone
  osm : Option AuthOSM
  deriving DecidableEq

/-- Helper for the `match &self.x { None => (), Some(x) => { x.is_valid()?; } }`
pattern of `CustomAuth::is_valid`. -/
def checkOpt {α : Type} (f : α → Except String Bool) : Option α → Except String Bool
  | none => .ok true
  | some x => f x

/-- `CustomAuth::is_valid` (lines 445-501).  As in the source it checks,
in order: `server`, `meta`, `mvt`, `schema`, `user`, `feature`, `style`,
`delta`, `bounds`, `clone`, `osm` — and never `webhooks`, `stats` or
`auth`. -/
def CustomAuth.is_valid (x : CustomAuth) : Except String Bool := do
  let _ ← is_all "server" x.server
  let _ ← checkOpt AuthMeta.is_valid x.meta
  let _ ← checkOpt AuthMVT.is_valid x.mvt
  let _ ← checkOpt AuthSchema.is_valid x.schema
  let _ ← checkOpt AuthUser.is_valid x.user
  let _ ← checkOpt AuthFeature.is_valid x.feature
  let _ ← checkOpt AuthStyle.is_valid x.style
  let _ ← checkOpt AuthDelta.is_valid x.delta
  let _ ← checkOpt AuthBounds.is_valid x.bounds
  let _ ← checkOpt AuthClone.is_valid x.pclone
  let _ ← checkOpt AuthOSM.is_valid x.osm
  pure true

/-- `CustomAuth::new` (lines 547-564): the compiled-in default policy. -/
def CustomAuth.new : CustomAuth :=
  { server := some "public",
    webhooks := some AuthWebhooks.new,
    meta := some AuthMeta.new,
    stats := some AuthStats.new,
    schema := some AuthSchema.new,
    auth := some AuthAuth.new,
    mvt := some AuthMVT.new,
    user := some AuthUser.new,
    feature := some AuthFeature.new,
    style := some AuthStyle.new,
    delta := some AuthDelta.new,
    bounds := some AuthBounds.new,
    pclone := some AuthClone.new,
    osm := some AuthOSM.new }

/-- The `Auth` credential (lines 855-861): per-request container of a raw
transport secret (`token` or `basic`) or a resolved identity (`uid`,
`access`). -/
structure Auth where
  uid : Option Int
  access : Option String
  token : Option String
  basic : Option (String × String)
  deriving DecidableEq

def Auth.new : Auth :=
  { uid := none, access := none, token := none, basic := none }

/-- `Auth::secure` (lines 879-889): install the resolved identity when one is
given, and always clear both secret fields. -/
def Auth.secure (a : Auth) (user : Option (Int × Option String)) : Auth :=
  match user with
  | some u => { a with uid := some u.1, access := u.2, token := none, basic := none }
  | none => { a with token := none, basic := none }

/-- The identity store, as `Auth::validate` queries it: `queryUsers u p` is
the `users` lookup by username and password and `queryTokens t` the
unexpired-token join; each returns `none` on a store-level failure (the
`Err(_)` arm of `conn.query`) and otherwise the `(id, access)` rows. -/
structure Conn where
  queryUsers : String → String → Option (List (Int × Option String))
  queryTokens : String → Option (List (Int × Option String))

/-- `Auth::validate` (lines 900-959): resolve a basic secret against the
store requiring exactly one row, else a token secret requiring at least one
row, else return `Ok(None)` leaving the credential untouched.  The mutated
credential is returned alongside the Rust return value. -/
def Auth.validate (a : Auth) (conn : Conn) : Except HecateError (Option Int × Auth) :=
  match a.basic with
  | some b =>
    match conn.queryUsers b.1 b.2 with
    | some res =>
      if res.length ≠ 1 then .error notAuthed
      else
        match res with
        | u :: _ => .ok (some u.1, a.secure (some (u.1, u.2)))
        | [] => .error notAuthed
    | none => .error notAuthed
  | none =>
    match a.token with
    | some t =>
      match conn.queryTokens t with
      | some res =>
        if res.length = 0 then .error notAuthed
        else
          match res with
          | u :: _ => .ok (some u.1, a.secure (some (u.1, u.2)))
          | [] => .error notAuthed
      | none => .error notAuthed
    | none => .ok (none, a)

/-- `auth_met` (lines 507-544): validate the credential first, then apply
the tier logic of the required scope string.  The possibly mutated
credential is returned alongside the Rust `Ok(true)`. -/
def auth_met (required : Option String) (auth : Auth) (conn : Conn) :
    Except HecateError (Bool × Auth) :=
  match auth.validate conn with
  | .error e => .error e
  | .ok (_, auth) =>
    match required with
    | none => .error notAuthed
    | some req =>
      if req = "public" then .ok (true, auth)
      else if req = "admin" then
        if auth.uid.isNone || auth.access.isNone then .error notAuthed
        else if auth.access = some "admin" then .ok (true, auth)
        else .error notAuthed
      else if req = "user" then
        if auth.uid.isSome then .ok (true, auth) else .error notAuthed
      else if req = "self" then
        if auth.uid.isSome then .ok (true, auth) else .error notAuthed
      else .error notAuthed

/-- `CustomAuth::allows_webhooks_list` (lines 581-586): an absent `webhooks`
category denies outright; a present one delegates its `list` entry to
`auth_met`. -/
def CustomAuth.allows_webhooks_list (x : CustomAuth) (auth : Auth) (conn : Conn) :
    Except HecateError (Bool × Auth) :=
  match x.webhooks with
  | none => .error notAuthed
  | some webhooks => auth_met webhooks.list auth conn

/-- `rocket::request::Outcome`, restricted to the two constructors
`from_request` uses: `Success(auth)` and `Failure((Status::Unauthorized, ()))`. -/
inductive Outcome (α : Type) where
  | success : α → Outcome α
  | failure : Outcome α
  deriving DecidableEq

/-- The value of one base64 alphabet character. -/
def b64Val (c : Char) : Option Nat :=
  if 'A' ≤ c ∧ c ≤ 'Z' then some (c.toNat - 65)
  else if 'a' ≤ c ∧ c ≤ 'z' then some (c.toNat - 97 + 26)
  else if '0' ≤ c ∧ c ≤ '9' then some (c.toNat - 48 + 52)
  else if c = '+' then some 62
  else if c = '/' then some 63
  else none

/-- Standard-alphabet base64 decoding over quartets, as `base64::decode`
performs it: `=` padding only at the end, a final group of two or three
characters also accepted unpadded, any input of length 1 mod 4 or with a
character outside the alphabet rejected. -/
def base64DecodeCore : List Char → Option (List Nat)
  | [] => some []
  | [_] => none
  | [c1, c2] => do
    let v1 ← b64Val c1
    let v2 ← b64Val c2
    pure [v1 * 4 + v2 / 16]
  | [c1, c2, c3] => do
    let v1 ← b64Val c1
    let v2 ← b64Val c2
    let v3 ← b64Val c3
    pure [v1 * 4 + v2 / 16, (v2 % 16) * 16 + v3 / 4]
  | c1 :: c2 :: c3 :: c4 :: rest => do
    let v1 ← b64Val c1
    let v2 ← b64Val c2
    if c3 = '=' then
      if c4 = '=' ∧ rest = [] then pure [v1 * 4 + v2 / 16] else none
    else do
      let v3 ← b64Val c3
      if c4 = '=' then
        if rest = [] then pure [v1 * 4 + v2 / 16, (v2 % 16) * 16 + v3 / 4] else none
      else do
        let v4 ← b64Val c4
        let r ← base64DecodeCore rest
        pure ([v1 * 4 + v2 / 16, (v2 % 16) * 16 + v3 / 4, (v3 % 4) * 64 + v4] ++ r)

def base64Decode (s : String) : Option (List Nat) :=
  base64DecodeCore s.data

/-- Whether `b` is a UTF-8 continuation byte. -/
def isCont (b : Nat) : Bool :=
  128 ≤ b ∧ b < 192

/-- UTF-8 decoding of a byte list into code points, as
`String::from_utf8` validates it: rejecting stray or missing continuation
bytes, overlong encodings, surrogates and values above `0x10FFFF`. -/
def utf8Decode : List Nat → Option (List Char)
  | [] => some []
  | b :: rest =>
    if b < 128 then do
      let r ← utf8Decode rest
      pure (Char.ofNat b :: r)
    else if b < 192 then none
    else if b < 224 then
      match rest with
      | b2 :: rest2 =>
        if isCont b2 then
          let cp := (b - 192) * 64 + (b2 - 128)
          if cp < 128 then none
          else do
            let r ← utf8Decode rest2
            pure (Char.ofNat cp :: r)
        else none
      | [] => none
    else if b < 240 then
      match rest with
      | b2 :: b3 :: rest2 =>
        if isCont b2 ∧ isCont b3 then
          let cp := (b - 224) * 4096 + (b2 - 128) * 64 + (b3 - 128)
          if cp < 2048 then none
          else if 55296 ≤ cp ∧ cp < 57344 then none
          else do
            let r ← utf8Decode rest2
            pure (Char.ofNat cp :: r)
        else none
      | _ => none
    else if b < 248 then
      match rest with
      | b2 :: b3 :: b4 :: rest2 =>
        if isCont b2 ∧ isCont b3 ∧ isCont b4 then
          let cp := (b - 240) * 262144 + (b2 - 128) * 4096 + (b3 - 128) * 64 + (b4 - 128)
          if cp < 65536 then none
          else if cp > 1114111 then none
          else do
            let r ← utf8Decode rest2
            pure (Char.ofNat cp :: r)
        else none
      | _ => none
    else none

/-- Rust `str::split(":")` over the characters of the decoded payload:
always at least one field, one extra field per colon. -/
def splitColon : List Char → List (List Char)
  | [] => [[]]
  | c :: rest =>
    if c = ':' then [] :: splitColon rest
    else
      match splitColon rest with
      | h :: t => (c :: h) :: t
      | [] => [[c]]

/-- `impl FromRequest for Auth` (lines 962-1007): build the per-request
credential from the optional `session` cookie and the list of
`Authorization` header values.  Byte offsets of the source (`len()`,
`split_off(6)`) are modelled as character offsets: header values are
treated as ASCII. -/
def from_request (cookie : Option String) (headers : List String) : Outcome Auth :=
  match cookie with
  | some token => .success { Auth.new with token := some token }
  | none =>
    match headers with
    | [key] =>
      if key.length < 7 then .success Auth.new
      else
        let authtype := key.take 6
        let auth_str := key.drop 6
        if authtype ≠ "Basic " then .success Auth.new
        else
          match base64Decode auth_str with
          | some decoded =>
            match utf8Decode decoded with
            | some decoded_str =>
              match splitColon decoded_str with
              | [u, p] => .success { Auth.new with basic := some (String.mk u, String.mk p) }
              | _ => .failure
            | none => .failure
          | none => .failure
    | _ => .success Auth.new

/-- Whether a `"Basic "` remainder is malformed in the sense of Rule C of
the resolver: base64 decoding fails, UTF-8 decoding fails, or the decoded
text does not split into exactly two colon-separated fields. -/
def remainderMalformed (r : String) : Bool :=
  match base64Decode r with
  | none => true
  | some bytes =>
    match utf8Decode bytes with
    | none => true
    | some s => (splitColon s).length != 2

/-- A store with no users and no sessions, every query succeeding. -/
def conn0 : Conn :=
  { queryUsers := fun _ _ => some [], queryTokens := fun _ => some [] }

/-- A store holding exactly the user `u` with password `p`, id 7,
access tier `user`, and no sessions. -/
def connU : Conn :=
  { queryUsers := fun u p => if u = "u" ∧ p = "p" then some [(7, some "user")] else some [],
    queryTokens := fun _ => some [] }

/-- A fresh credential carrying the basic secret `(u, p)`. -/
def basicCred : Auth :=
  { uid := none, access := none, token := none, basic := some ("u", "p") }

/-- The credential `basicCred` resolves to against `connU`. -/
def resolved7 : Auth :=
  { uid := some 7, access := some "user", token := none, basic := none }

/-- A resolved admin credential with no secret. -/
def adminAuth : Auth :=
  { uid := some 1, access := some "admin", token := none, basic := none }

/-- A policy document whose `webhooks::list`, `mvt::delete` and
`bounds::delete` entries hold the out-of-vocabulary value `"bogus"`
(`feature::force` set to null so that the checked entries all pass). -/
def docSneaky : CustomAuth :=
  { CustomAuth.new with
      feature := some { AuthFeature.new with force := none },
      webhooks := some { list := some "bogus", delete := some "admin", update := some "admin" },
      mvt := some { AuthMVT.new with delete := some "bogus" },
      bounds := some { AuthBounds.new with delete := some "bogus" } }

/-- Every error `Auth::validate` can return is the uniform
not-authenticated error. -/
theorem validate_error_notAuthed (a : Auth) (conn : Conn) (e : HecateError)
    (h : a.validate conn = .error e) : e = notAuthed := by
  unfold Auth.validate at h
  repeat' split at h
  all_goals simp_all

/-- C7: when a session cookie is present, the resolver captures it as the
credential's session-token secret and, whatever the `Authorization` headers
hold (even a simultaneously well-formed `Basic` one), returns that
credential without inspecting them: the result is the same for every
header list. -/
theorem from_request_cookie_precedence (c : String) (headers : List String) :
    from_request (some c) headers =
      .success { uid := none, access := none, token := some c, basic := none } := rfl

/-- C10: the compiled-in default policy document fails its own validation:
`AuthFeature::new` sets `force` to the string `"none"`, which `is_auth`
rejects, so `CustomAuth::new().is_valid()` returns that `ConfigError`
rather than `Ok`. -/
theorem customAuth_default_invalid :
    CustomAuth.new.is_valid =
      .error "Auth Config Error: 'feature::force' must be one of 'self', 'admin', or null" := by
  decide

/-- C6 (failing input): the document `docSneaky` carries three entries that
their categories' classifiers reject — `webhooks::list`, `mvt::delete` and
`bounds::delete` all set to `"bogus"` — yet `CustomAuth::is_valid` returns
`Ok(true)`: it never visits the `webhooks`, `stats` or `auth` categories,
and the lines labelled `mvt::delete` and `bounds::delete` re-validate the
`regen` and `create` fields instead of `delete`. -/
theorem is_valid_skips_entries :
    docSneaky.is_valid = .ok true ∧
    is_auth "webhooks::list" (some "bogus") =
      .error "Auth Config Error: 'webhooks::list' must be one of 'self', 'admin', or null" ∧
    is_all "mvt::delete" (some "bogus") =
      .error "Auth Config Error: 'mvt::delete' must be one of 'public', 'admin', 'user', or null" ∧
    is_all "bounds::delete" (some "bogus") =
      .error "Auth Config Error: 'bounds::delete' must be one of 'public', 'admin', 'user', or null" := by
  refine ⟨by decide, by decide, by decide, by decide⟩

/-- C1 (counterexample): a credential carrying a session-token secret that
the store does not match makes `auth_met` return the not-authenticated
error even though the required tier is `public` — validation runs first and
its failure propagates, so `public` does not allow unconditionally. -/
theorem authMet_public_secret_failure_cex :
    auth_met (some "public") { Auth.new with token := some "t" } conn0 =
      .error notAuthed := by
  decide

/-- C1 (amended): whenever credential validation succeeds (the credential
is resolved, or anonymous with no secret), required tier `public` allows. -/
theorem authMet_public_allows_validated (a : Auth) (conn : Conn) (r : Option Int) (a' : Auth)
    (h : a.validate conn = .ok (r, a')) :
    auth_met (some "public") a conn = .ok (true, a') := by
  unfold auth_met
  rw [h]
  rfl

/-- C1 (witness): a fresh anonymous credential validates trivially and
`public` allows it. -/
theorem authMet_public_allows_validated_witness :
    auth_met (some "public") Auth.new conn0 = .ok (true, Auth.new) :=
  authMet_public_allows_validated Auth.new conn0 none Auth.new rfl

/-- C2 (counterexample): with the `webhooks` category entirely absent,
`allows_webhooks_list` denies a resolved admin credential, while the
compiled-in default policy for that entry (`webhooks::list = "admin"`)
allows the same credential — an absent category does not behave as the
compiled-in default. -/
theorem webhooks_absent_vs_default_cex :
    CustomAuth.allows_webhooks_list { CustomAuth.new with webhooks := none } adminAuth conn0 =
      .error notAuthed ∧
    auth_met AuthWebhooks.new.list adminAuth conn0 = .ok (true, adminAuth) := by
  refine ⟨by decide, by decide⟩

/-- C2 (amended): an entirely absent `webhooks` category and a present
`webhooks` category whose `list` entry is unspecified both deny the
operation with the not-authenticated error: the two missing cases are
observably identical and neither falls back to the compiled-in default. -/
theorem webhooks_missing_cases_identical (doc : CustomAuth) (a : Auth) (conn : Conn) :
    (doc.webhooks = none → doc.allows_webhooks_list a conn = .error notAuthed) ∧
    (∀ w, doc.webhooks = some w → w.list = none →
      doc.allows_webhooks_list a conn = .error notAuthed) := by
  constructor
  · intro hw
    unfold CustomAuth.allows_webhooks_list
    simp only [hw]
  · intro w hw hl
    unfold CustomAuth.allows_webhooks_list
    simp only [hw, hl]
    unfold auth_met
    cases h : a.validate conn with
    | error e => rw [validate_error_notAuthed a conn e h]
    | ok p => obtain ⟨r, b⟩ := p; rfl

/-- C2 (witness): both missing cases evaluated on concrete documents. -/
theorem webhooks_missing_cases_identical_witness :
    CustomAuth.allows_webhooks_list { CustomAuth.new with webhooks := none } Auth.new conn0 =
      .error notAuthed ∧
    CustomAuth.allows_webhooks_list
        { CustomAuth.new with webhooks := some { list := none, delete := none, update := none } }
        Auth.new conn0 =
      .error notAuthed :=
  ⟨(webhooks_missing_cases_identical _ Auth.new conn0).1 rfl,
   (webhooks_missing_cases_identical _ Auth.new conn0).2 _ rfl rfl⟩

/-- C3: with required tier `admin`, `auth_met` allows exactly when the
credential, after validation, has a resolved identity (`uid` present) and
its resolved tier equals `"admin"`; in every other case — no uid, no
access value, another access value, or a failing secret — it returns the
uniform not-authenticated error. -/
theorem authMet_admin_characterization (a : Auth) (conn : Conn) :
    auth_met (some "admin") a conn =
      match a.validate conn with
      | .error _ => .error notAuthed
      | .ok (_, b) =>
        if b.uid.isSome ∧ b.access = some "admin" then .ok (true, b)
        else .error notAuthed := by
  unfold auth_met
  cases h : a.validate conn with
  | error e => rw [validate_error_notAuthed a conn e h]
  | ok p =>
    obtain ⟨r, b⟩ := p
    cases hu : b.uid with
    | none => simp [hu]
    | some u =>
      cases hacc : b.access with
      | none => simp [hu, hacc]
      | some s =>
        by_cases hs : s = "admin"
        · subst hs; simp [hu, hacc]
        · simp [hu, hacc, hs]

/-- C8: with required tier `user` or `self`, `auth_met` allows exactly when
the credential, after validation, has a resolved identity (`uid` present),
whatever the resolved access tier; `auth_met` takes no target resource, so
the `self` case compares nothing to any owner. -/
theorem authMet_user_self_characterization (a : Auth) (conn : Conn) :
    (auth_met (some "user") a conn =
      match a.validate conn with
      | .error _ => .error notAuthed
      | .ok (_, b) => if b.uid.isSome then .ok (true, b) else .error notAuthed) ∧
    (auth_met (some "self") a conn =
      match a.validate conn with
      | .error _ => .error notAuthed
      | .ok (_, b) => if b.uid.isSome then .ok (true, b) else .error notAuthed) := by
  constructor <;>
  · unfold auth_met
    cases h : a.validate conn with
    | error e => rw [validate_error_notAuthed a conn e h]
    | ok p =>
      obtain ⟨r, b⟩ := p
      cases hu : b.uid <;> simp [hu]

/-- C9: `auth_met` with no required tier denies with the not-authenticated
error for every credential and store, and so does any required tier string
other than `public`, `admin`, `user` and `self` — fail closed. -/
theorem authMet_none_or_unknown_denies (a : Auth) (conn : Conn) (req : String)
    (h1 : req ≠ "public") (h2 : req ≠ "admin") (h3 : req ≠ "user") (h4 : req ≠ "self") :
    auth_met none a conn = .error notAuthed ∧
    auth_met (some req) a conn = .error notAuthed := by
  constructor <;>
  · unfold auth_met
    cases h : a.validate conn with
    | error e => rw [validate_error_notAuthed a conn e h]
    | ok p =>
      obtain ⟨r, b⟩ := p
      simp [h1, h2, h3, h4]

/-- C9 (witness): the no-policy case and the unknown tier `"bogus"` both
deny a concrete fresh credential against the empty store. -/
theorem authMet_none_or_unknown_denies_witness :
    auth_met none Auth.new conn0 = .error notAuthed ∧
    auth_met (some "bogus") Auth.new conn0 = .error notAuthed :=
  authMet_none_or_unknown_denies Auth.new conn0 "bogus"
    (by decide) (by decide) (by decide) (by decide)

/-- C4 (amended): when a credential carrying a secret validates
successfully, both secret fields of the resulting credential are cleared,
and every subsequent `validate` call — against any store — performs no
store query (its result does not depend on the store at all), leaves the
credential unchanged, and returns `Ok(None)`. -/
theorem validate_oneshot (a : Auth) (conn : Conn) (r : Option Int) (a' : Auth)
    (hsec : a.basic.isSome ∨ a.token.isSome)
    (h : a.validate conn = .ok (r, a')) :
    a'.basic = none ∧ a'.token = none ∧
    ∀ c2 : Conn, a'.validate c2 = .ok (none, a') := by
  have hb : a'.basic = none ∧ a'.token = none := by
    unfold Auth.validate at h
    repeat' split at h
    all_goals simp_all [Auth.secure]
    all_goals (obtain ⟨h1, h2⟩ := h; subst h2; exact ⟨rfl, rfl⟩)
  refine ⟨hb.1, hb.2, fun c2 => ?_⟩
  unfold Auth.validate
  simp only [hb.1, hb.2]

/-- C4 (witness): a basic credential matching the one stored record
resolves to `resolved7` (secrets cleared), and re-validating `resolved7`
against the empty store still returns `Ok(None)` with the credential
unchanged. -/
theorem validate_oneshot_witness :
    resolved7.basic = none ∧ resolved7.token = none ∧
    resolved7.validate conn0 = .ok (none, resolved7) := by
  have h := validate_oneshot basicCred connU (some 7) resolved7 (Or.inl (by decide)) (by decide)
  exact ⟨h.1, h.2.1, h.2.2 conn0⟩

/-- C4 (counterexample): the first `validate` on `basicCred` returns
`Ok(Some 7)` and caches uid 7; the second `validate` on the now
secret-free credential returns `Ok(None)` — not the currently cached
identity `Some 7` — although the cached identity is still present on the
credential. -/
theorem validate_second_call_returns_none_cex :
    basicCred.validate connU = .ok (some 7, resolved7) ∧
    resolved7.validate connU = .ok (none, resolved7) ∧
    resolved7.uid = some 7 := by
  refine ⟨by decide, by decide, by decide⟩

/-- With no cookie and a single `Authorization` header, resolution fails
exactly when the header is at least 7 characters, starts with `"Basic "`,
and its remainder is malformed (bad base64, bad UTF-8, or not exactly two
colon-separated fields). -/
theorem from_request_single_failure_iff (k : String) :
    from_request none [k] = .failure ↔
      (7 ≤ k.length ∧ k.take 6 = "Basic " ∧ remainderMalformed (k.drop 6) = true) := by
  unfold from_request
  by_cases hl : k.length < 7
  · have h7 : ¬ (7 ≤ k.length) := by omega
    simp [hl, h7]
  · have h7 : 7 ≤ k.length := by omega
    by_cases ht : k.take 6 = "Basic "
    · simp only [if_neg hl, ht, ne_eq, not_true_eq_false, if_false]
      cases hb : base64Decode (k.drop 6) with
      | none => simp [remainderMalformed, hb, h7, ht]
      | some bytes =>
        cases hu : utf8Decode bytes with
        | none => simp [remainderMalformed, hb, hu, h7, ht]
        | some s =>
          rcases hsp : splitColon s with _ | ⟨u, _ | ⟨p, _ | ⟨q, t3⟩⟩⟩ <;>
            simp [remainderMalformed, hb, hu, hsp, h7, ht]
    · simp [hl, ht]

/-- C5 (counterexample): the header value exactly `"Basic "` carries the
`"Basic "` prefix and its empty remainder decodes to a payload with one
colon-separated field rather than two, yet resolution yields an anonymous
credential instead of failing the request: the 7-character length guard
short-circuits before the prefix is examined. -/
theorem basic_empty_remainder_anonymous_cex :
    from_request none ["Basic "] = .success Auth.new ∧
    "Basic ".take 6 = "Basic " ∧
    remainderMalformed ("Basic ".drop 6) = true := by
  refine ⟨by decide, by decide, by decide⟩

/-- C5 (amended): with no session cookie, resolution rejects with 401
exactly when there is a single `Authorization` header of at least 7
characters whose first 6 characters are `"Basic "` and whose remainder is
malformed (bad base64, bad UTF-8, or not exactly two colon-separated
fields); zero or multiple headers, or a single header whose scheme prefix
is not `"Basic "` — including the 6-character header `"Basic "` itself —
yield an anonymous credential with no secret and no failure. -/
theorem from_request_header_characterization (headers : List String) :
    (from_request none headers = .failure ↔
      ∃ k, headers = [k] ∧ 7 ≤ k.length ∧ k.take 6 = "Basic " ∧
        remainderMalformed (k.drop 6) = true) ∧
    (headers.length ≠ 1 → from_request none headers = .success Auth.new) ∧
    (∀ k, headers = [k] → k.take 6 ≠ "Basic " → from_request none headers = .success Auth.new) := by
  refine ⟨?_, ?_, ?_⟩
  · cases headers with
    | nil => simp [from_request]
    | cons k t =>
      cases t with
      | nil => simp [from_request_single_failure_iff]
      | cons k2 t2 => simp [from_request]
  · intro hlen
    cases headers with
    | nil => rfl
    | cons k t =>
      cases t with
      | nil => simp at hlen
      | cons k2 t2 => rfl
  · rintro k rfl ht
    unfold from_request
    by_cases hl : k.length < 7
    · simp [hl]
    · simp [hl, ht]

/-- C5 (witness): a single header `"Basic x"` (bad base64 remainder) fails
resolution, and an empty header list yields the anonymous credential. -/
theorem from_request_header_characterization_witness :
    from_request none ["Basic x"] = .failure ∧
    from_request none [] = .success Auth.new :=
  ⟨(from_request_header_characterization ["Basic x"]).1.mpr
      ⟨"Basic x", rfl, by decide, by decide, by decide⟩,
    (from_request_header_characterization []).2.1 (by decide)⟩

end Hecate
